import Mathlib

/-!
Shallow embedding of the Lounge reverse-proxy gateway core, translated from
`src/proxy/aws.ts` and `src/shared/key-management/palm/serializer.ts`.

JavaScript conventions used throughout the embedding:
* a possibly-absent value is an `Option`;
* a JS function that can throw is embedded as a function into `Option`
  (`none` = an exception escapes);
* JS string truthiness (`""`, `undefined` falsy) is made explicit where the
  source relies on it.
-/

namespace Lounge

/-- `sub` occurs as a contiguous run somewhere in `s`. -/
def hasSubList (s sub : List Char) : Bool :=
  match s with
  | [] => sub.isEmpty
  | c :: tl => sub.isPrefixOf (c :: tl) || hasSubList tl sub

/-- JS `haystack.includes(needle)`: case-sensitive substring containment. -/
def jsIncludes (s sub : String) : Bool :=
  hasSubList s.data sub.data

/-- JS truthiness of a possibly-absent string: `undefined` and `""` are falsy. -/
def jsTruthy : Option String → Bool
  | none => false
  | some s => !s.data.isEmpty

/-! ### The model-name regex of `maybeReassignModel`

`/^(claude-)?(instant-)?(v)?(\d+)([.-](\d{1}))?(-\d+k)?(-sonnet-|-opus-|-haiku-)?(\d*)/i`

The pattern is anchored at the start and every piece after `(\d+)` is optional
and can also match nothing, so once `(\d+)` has consumed at least one digit the
whole pattern matches and no backtracking past `(\d+)` can occur.  Before
`(\d+)`, taking an optional literal (`claude-`, `instant-`, `v`) greedily is
also final: after consuming one of them the next character is `c`/`i`/`v`
respectively only if the literal matches again, never a digit, so declining a
literal that matched can never enable `(\d+)`.  Hence the straight greedy
left-to-right scan below computes exactly the JS match and captures. -/

/-- Case-insensitive literal match (the regex has the `i` flag): if `s` starts
with `lit` up to ASCII case, return the remainder. -/
def tryLitCI : List Char → List Char → Option (List Char)
  | [], s => some s
  | _ :: _, [] => none
  | l :: ls, c :: cs => if l.toLower == c.toLower then tryLitCI ls cs else none

/-- Split a leading run of `\d` (the JS `\d` is exactly `0-9`). -/
def takeDigits : List Char → List Char × List Char
  | [] => ([], [])
  | c :: cs =>
    if c.isDigit then
      let (ds, r) := takeDigits cs
      (c :: ds, r)
    else ([], c :: cs)

/-- The optional context-size group `(-\d+k)?`: consume it if it matches,
otherwise leave the input unchanged.  (Greedy `\d+` never has to give digits
back: the following `k` can never match a digit.) -/
def matchCtx (s : List Char) : List Char :=
  match s with
  | '-' :: rest =>
    (match takeDigits rest with
     | (_ :: _, k :: r2) => if k.toLower == 'k' then r2 else s
     | _ => s)
  | _ => s

/-- Try one family alternative, returning the captured substring exactly as it
appears in the input (the capture keeps the original case even though the
match is case-insensitive). -/
def tryFam (lit : String) (s : List Char) : Option (String × List Char) :=
  match tryLitCI lit.data s with
  | some rest => some (String.mk (s.take lit.length), rest)
  | none => none

/-- The optional family group `(-sonnet-|-opus-|-haiku-)?`; alternatives are
tried in the regex's order. -/
def matchFamily (s : List Char) : Option String × List Char :=
  match tryFam "-sonnet-" s with
  | some (nm, r) => (some nm, r)
  | none =>
    match tryFam "-opus-" s with
    | some (nm, r) => (some nm, r)
    | none =>
      match tryFam "-haiku-" s with
      | some (nm, r) => (some nm, r)
      | none => (none, s)

/-- The capture groups of the model pattern that `maybeReassignModel`
destructures and uses: group 2 (`instant-`, used only for truthiness),
group 4 (major version digits), group 6 (single minor-version digit) and
group 8 (family name, possibly undefined). -/
structure ModelMatch where
  instant : Bool
  major : String
  minor : Option String
  name : Option String
deriving Repr, DecidableEq

/-- `model.match(pattern)`: `none` is JS `null` (the pattern fails, i.e. no
digit run is reachable after the optional prefixes). -/
def matchModelPattern (model : String) : Option ModelMatch :=
  let s0 := model.data
  let s1 := (tryLitCI "claude-".data s0).getD s0
  let (instant, s2) :=
    match tryLitCI "instant-".data s1 with
    | some r => (true, r)
    | none => (false, s1)
  let s3 := (tryLitCI "v".data s2).getD s2
  match takeDigits s3 with
  | ([], _) => none
  | (mj :: mjs, s4) =>
    let (minor, s5) :=
      match s4 with
      | c :: d :: rest =>
        if (c == '.' || c == '-') && d.isDigit then (some (String.mk [d]), rest)
        else ((none : Option String), s4)
      | _ => ((none : Option String), s4)
    let s6 := matchCtx s5
    let (name, _s7) := matchFamily s6
    some { instant := instant, major := String.mk (mj :: mjs), minor := minor, name := name }

/-- `LATEST_AWS_V2_MINOR_VERSION` from `aws.ts`. -/
def LATEST_AWS_V2_MINOR_VERSION : String := "1"

/-- The `ver` computed at `aws.ts` line 272: the major version, or
major-dot-minor when a minor digit was captured (a matched minor digit is a
non-empty string, hence truthy in JS). -/
def versionOf (m : ModelMatch) : String :=
  match m.minor with
  | some mn => m.major ++ "." ++ mn
  | none => m.major

/-- The branch of `maybeReassignModel` that runs after a successful pattern
match (`aws.ts` lines 265-299).  `none` models the `TypeError` thrown by
`name.includes("opus")` when the family group did not participate in the
match (`name` is `undefined`). -/
def reassignFromMatch (m : ModelMatch) : Option String :=
  if m.instant then some "anthropic.claude-instant-v1"
  else
    let ver := versionOf m
    if ver == "1" || ver == "1.0" then some "anthropic.claude-v1"
    else if ver == "2" || ver == "2.0" then some "anthropic.claude-v2"
    else if ver == "3" || ver == "3.0" then
      match m.name with
      | none => none
      | some nm =>
        if jsIncludes nm "opus" then some "anthropic.claude-3-opus-20240229-v1:0"
        else if jsIncludes nm "haiku" then some "anthropic.claude-3-haiku-20240307-v1:0"
        else some "anthropic.claude-3-sonnet-20240229-v1:0"
    else if ver == "3.5" then some "anthropic.claude-3-5-sonnet-20240620-v1:0"
    else some ("anthropic.claude-v2:" ++ LATEST_AWS_V2_MINOR_VERSION)

/-- `maybeReassignModel` (`aws.ts` lines 242-300), as the map from the incoming
`req.body.model` string to the model left in `req.body.model` afterwards;
`some r` means the function returns normally with `req.body.model = r`,
`none` means it throws. -/
def maybeReassignModel (model : String) : Option String :=
  if jsIncludes model "anthropic.claude" then some model
  else
    match matchModelPattern model with
    | none => some ("anthropic.claude-v2:" ++ LATEST_AWS_V2_MINOR_VERSION)
    | some m => reassignFromMatch m

/-! ### Dialect routing (`aws.ts` lines 152-194)

A preprocessor is summarized by its configuration: the inbound and outbound
API dialects, the service tag, and whether its `afterTransform` hook list
contains `maybeReassignModel`. -/

structure PreprocessorConfig where
  inApi : String
  outApi : String
  service : String
  reassignModel : Bool
deriving Repr, DecidableEq

def nativeTextPreprocessor : PreprocessorConfig :=
  { inApi := "anthropic-text", outApi := "anthropic-text", service := "aws", reassignModel := true }

def textToChatPreprocessor : PreprocessorConfig :=
  { inApi := "anthropic-text", outApi := "anthropic-chat", service := "aws", reassignModel := true }

def oaiToAwsTextPreprocessor : PreprocessorConfig :=
  { inApi := "openai", outApi := "anthropic-text", service := "aws", reassignModel := true }

def oaiToAwsChatPreprocessor : PreprocessorConfig :=
  { inApi := "openai", outApi := "anthropic-chat", service := "aws", reassignModel := true }

/-- The preprocessor declared inline on the `/v1/sonnet/:action` route
(`aws.ts` lines 215-219); it has no `afterTransform` hooks. -/
def sonnetCompatPreprocessor : PreprocessorConfig :=
  { inApi := "anthropic-text", outApi := "anthropic-chat", service := "aws", reassignModel := false }

/-- `req.body.model?.includes("claude-3")`: the optional chain yields
`undefined` (falsy) when the model field is absent. -/
def includesClaude3 : Option String → Bool
  | none => false
  | some m => jsIncludes m "claude-3"

/-- `preprocessAwsTextRequest` (`aws.ts` lines 166-172): which preprocessor
the `/v1/complete` route dispatches the request to. -/
def preprocessAwsTextRequest (bodyModel : Option String) : PreprocessorConfig :=
  if includesClaude3 bodyModel then textToChatPreprocessor else nativeTextPreprocessor

/-- `preprocessOpenAICompatRequest` (`aws.ts` lines 188-194): which
preprocessor the `/v1/chat/completions` route dispatches the request to. -/
def preprocessOpenAICompatRequest (bodyModel : Option String) : PreprocessorConfig :=
  if includesClaude3 bodyModel then oaiToAwsChatPreprocessor else oaiToAwsTextPreprocessor

/-! ### The response translation (`aws.ts` lines 64-131) -/

/-- The request fields `awsResponseHandler` and
`transformAwsTextResponseToOpenAI` read at response time. -/
structure ReqCtx where
  inboundApi : String
  outboundApi : String
  bodyModel : String
  promptTokens : Option Nat
  outputTokens : Option Nat
deriving Repr, DecidableEq

/-- An upstream AWS text-completion response body (the fields `aws.ts`
reads; each may be absent). -/
structure AwsTextBody where
  model : Option String
  completion : Option String
  stop_reason : Option String
deriving Repr, DecidableEq

/-- The OpenAI chat-completion shape built by
`transformAwsTextResponseToOpenAI` (single choice, flattened). -/
structure OpenAIChatResponse where
  id : String
  object : String
  created : Nat
  model : String
  prompt_tokens : Option Nat
  completion_tokens : Option Nat
  total_tokens : Nat
  role : String
  content : Option String
  finish_reason : Option String
  index : Nat
deriving Repr, DecidableEq

/-- `transformAwsTextResponseToOpenAI` (`aws.ts` lines 105-131).  `uuid`
abstracts the external `v4()` generator and `now` the external `Date.now()`;
`String.trim` stands for JS `.trim()`. -/
def transformAwsTextResponseToOpenAI (uuid : String) (now : Nat)
    (awsBody : AwsTextBody) (req : ReqCtx) : OpenAIChatResponse :=
  let totalTokens := req.promptTokens.getD 0 + req.outputTokens.getD 0
  { id := "aws-" ++ uuid
    object := "chat.completion"
    created := now
    model := req.bodyModel
    prompt_tokens := req.promptTokens
    completion_tokens := req.outputTokens
    total_tokens := totalTokens
    role := "assistant"
    content := awsBody.completion.map String.trim
    finish_reason := awsBody.stop_reason
    index := 0 }

/-- The body shapes `awsResponseHandler` can send back to the client for the
dialect pairs defined in `aws.ts`. -/
inductive ClientBody where
  | openaiShape (b : OpenAIChatResponse)
  | awsTextShape (b : AwsTextBody)
deriving Repr, DecidableEq

/-- `newBody.model` as read by the backfill check. -/
def ClientBody.modelField : ClientBody → Option String
  | .openaiShape b => some b.model
  | .awsTextShape b => b.model

/-- `newBody.model = m` as written by the backfill. -/
def ClientBody.withModel : ClientBody → String → ClientBody
  | .openaiShape b, m => .openaiShape { b with model := m }
  | .awsTextShape b, m => .awsTextShape { b with model := some m }

/-- `awsResponseHandler` (`aws.ts` lines 65-97) for non-streaming responses,
restricted to the dialect pairs whose transforms are defined in `aws.ts`
itself: `"openai<-anthropic-text"` (via `transformAwsTextResponseToOpenAI`)
and the default case of the switch, which leaves the body untouched (e.g. the
native `"anthropic-text<-anthropic-text"` route).  The two chat transforms
imported from `anthropic.ts` are outside the given sources, so those pairs
map to `none`.  After the switch, the handler backfills a missing model field
from `req.body.model` (`aws.ts` lines 91-94). -/
def awsResponseHandler (uuid : String) (now : Nat) (req : ReqCtx)
    (body : AwsTextBody) : Option ClientBody :=
  let pair := req.inboundApi ++ "<-" ++ req.outboundApi
  let newBodyOpt : Option ClientBody :=
    if pair == "openai<-anthropic-text" then
      some (ClientBody.openaiShape (transformAwsTextResponseToOpenAI uuid now body req))
    else if pair == "openai<-anthropic-chat" || pair == "anthropic-text<-anthropic-chat" then
      none
    else
      some (ClientBody.awsTextShape body)
  newBodyOpt.map fun newBody =>
    if !(jsTruthy newBody.modelField) && jsTruthy (some req.bodyModel) then
      newBody.withModel req.bodyModel
    else newBody

/-- Modelled from the spec: `createPreprocessorMiddleware`
(`middleware/request`, not among the given sources) normalizes the inbound
body, carrying the requested model string through unchanged (§4.3 stage 1),
and then runs the route's `afterTransform` hooks — here `maybeReassignModel`,
which leaves `req.body.model` holding the reconciled id.  This composition is
the `/v1/complete` route end to end for a non-streaming request: routing by
the raw model string, reconciliation, then `awsResponseHandler` on the
upstream body.  `none` means the request never produced a translated
response (the reconciliation hook threw, or the response transform lives
outside the given sources). -/
def completeRouteResponse (clientModel : String) (uuid : String) (now : Nat)
    (pt ot : Option Nat) (upstreamBody : AwsTextBody) : Option ClientBody :=
  let cfg := preprocessAwsTextRequest (some clientModel)
  (maybeReassignModel clientModel).bind fun reconciled =>
    awsResponseHandler uuid now
      { inboundApi := cfg.inApi, outboundApi := cfg.outApi, bodyModel := reconciled,
        promptTokens := pt, outputTokens := ot } upstreamBody

/-! ### The compatibility endpoint (`aws.ts` lines 302-335) -/

/-- The request state `handleCompatibilityRequest` reads: the matched route
parameter `action` (`"complete"` or `"messages"`), the body's model field,
and the body's `messages` field (`Boolean(req.body.messages)` is true exactly
when the field is present, a JS array being truthy even when empty). -/
structure CompatRequest where
  action : String
  bodyModel : Option String
  messages : Option (List String)
deriving Repr, DecidableEq

/-- What `handleCompatibilityRequest` does with a request: answer it directly
with an error envelope (no call to `next`, so nothing is proxied), or set
`req.body.model` and pass the request on to the proxy pipeline. -/
inductive CompatOutcome where
  | errorResponse (statusCode : Nat) (title message requestedEndpoint correctEndpoint : String)
  | next (newBodyModel : String)
deriving Repr, DecidableEq

/-- `handleCompatibilityRequest` (`aws.ts` lines 302-335). -/
def handleCompatibilityRequest (req : CompatRequest) : CompatOutcome :=
  let alreadyInChatFormat := req.messages.isSome
  let compatModel := "anthropic.claude-3-5-sonnet-20240620-v1:0"
  if req.action == "messages" || alreadyInChatFormat then
    CompatOutcome.errorResponse 400
      "Unnecessary usage of compatibility endpoint"
      "Your client seems to already support the new Claude API format. This endpoint is intended for clients that do not yet support the new format.\nUse the normal `/aws/claude` proxy endpoint instead."
      "/aws/claude/sonnet"
      "/aws/claude"
  else
    CompatOutcome.next compatModel

/-! ### The credential serializer
(`src/shared/key-management/palm/serializer.ts`) -/

/-- A Google PaLM credential, with the exact field set `deserialize`
constructs.  Timestamps are epoch milliseconds. -/
structure GooglePalmKey where
  key : String
  service : String
  modelFamilies : List String
  isDisabled : Bool
  isRevoked : Bool
  promptCount : Nat
  lastUsed : Nat
  rateLimitedAt : Nat
  rateLimitedUntil : Nat
  hash : String
  lastChecked : Nat
  bisonTokens : Nat
deriving Repr, DecidableEq

/-- `SerializedGooglePalmKey`: `SerializedKey` (the mandatory `key`) plus a
`Partial` pick of the `SERIALIZABLE_FIELDS` — `service`, `hash` and
`bisonTokens` may each be present or absent. -/
structure SerializedGooglePalmKey where
  key : String
  service : Option String := none
  hash : Option String := none
  bisonTokens : Option Nat := none
deriving Repr, DecidableEq

namespace GooglePalmKeySerializer

/-- `GooglePalmKeySerializer.serialize` (`serializer.ts` lines 16-18): the
persisted record is `{ key: key.key }` — no other field is written. -/
def serialize (key : GooglePalmKey) : SerializedGooglePalmKey :=
  { key := key.key }

/-- `GooglePalmKeySerializer.deserialize` (`serializer.ts` lines 19-40).
The defaults are written first and `...rest` (every field of the record
other than `key`) overrides them, rendered here by `Option.getD`.
`sha256hex` abstracts the external Node collaborator
`crypto.createHash("sha256").update(key).digest("hex")`; the derived
fingerprint is `plm-` followed by its first 8 hex characters. -/
def deserialize (sha256hex : String → String)
    (sk : SerializedGooglePalmKey) : GooglePalmKey :=
  { key := sk.key
    service := sk.service.getD "google-palm"
    modelFamilies := ["bison"]
    isDisabled := false
    isRevoked := false
    promptCount := 0
    lastUsed := 0
    rateLimitedAt := 0
    rateLimitedUntil := 0
    hash := sk.hash.getD ("plm-" ++ (sha256hex sk.key).take 8)
    lastChecked := 0
    bisonTokens := sk.bisonTokens.getD 0 }

end GooglePalmKeySerializer

/-! ### Theorems about model reconciliation -/

/-- Every model id that a successful branch of `reassignFromMatch` assigns
contains the substring `"anthropic.claude"`. -/
theorem reassignFromMatch_native (m : ModelMatch) (r : String)
    (h : reassignFromMatch m = some r) : jsIncludes r "anthropic.claude" = true := by
  unfold reassignFromMatch at h
  simp only [] at h
  repeat' split at h
  all_goals first
    | exact Option.noConfusion h
    | (cases h; decide)

/-- Every model id `maybeReassignModel` returns normally contains the
substring `"anthropic.claude"`. -/
theorem maybeReassignModel_native (s r : String)
    (h : maybeReassignModel s = some r) : jsIncludes r "anthropic.claude" = true := by
  unfold maybeReassignModel at h
  split at h
  next hin =>
    cases h; exact hin
  · split at h
    · cases h; decide
    next m hm => exact reassignFromMatch_native m r h

/-- A string containing `"anthropic.claude"` is passed through unchanged. -/
theorem maybeReassignModel_passthrough (r : String)
    (h : jsIncludes r "anthropic.claude" = true) : maybeReassignModel r = some r := by
  unfold maybeReassignModel
  rw [h]
  simp

/-- C5: model reconciliation is idempotent — whenever `maybeReassignModel`
returns a canonical id normally, re-applying it to that id returns the same
id (every canonical id contains the upstream's native `"anthropic.claude"`
marker and is passed through by the first check). -/
theorem maybeReassignModel_idempotent (s r : String)
    (h : maybeReassignModel s = some r) : maybeReassignModel r = some r :=
  maybeReassignModel_passthrough r (maybeReassignModel_native s r h)

/-- Witness for C5 at the concrete input `"gpt-4"`, whose canonical id is the
v2 fallback. -/
theorem maybeReassignModel_idempotent_witness :
    maybeReassignModel "gpt-4" = some "anthropic.claude-v2:1" ∧
      maybeReassignModel "anthropic.claude-v2:1" = some "anthropic.claude-v2:1" :=
  ⟨by decide, maybeReassignModel_idempotent "gpt-4" "anthropic.claude-v2:1" (by decide)⟩

/-- C1: the totality claim fails in the code — on `"claude-3"` (major version
3, no family name), `maybeReassignModel` throws a `TypeError`
(`name.includes("opus")` with `name` undefined), embedded here as `none`. -/
theorem maybeReassignModel_throws_on_claude3 :
    maybeReassignModel "claude-3" = none := by decide

/-- C6: the version decision table as the code computes it — rows `1`/`1.0`,
`2`/`2.0`, `3` with a matched family, `3.5` and the fallback behave as
specified, but a version-3 string with no matched family name (here
`"claude-3.0"`) crashes (`none`) instead of defaulting to the sonnet id. -/
theorem maybeReassignModel_decision_table :
    maybeReassignModel "claude-v1" = some "anthropic.claude-v1" ∧
      maybeReassignModel "claude-1.0" = some "anthropic.claude-v1" ∧
      maybeReassignModel "claude-v2" = some "anthropic.claude-v2" ∧
      maybeReassignModel "claude-2.0" = some "anthropic.claude-v2" ∧
      maybeReassignModel "claude-3-opus-20240229" =
        some "anthropic.claude-3-opus-20240229-v1:0" ∧
      maybeReassignModel "claude-3-haiku-20240307" =
        some "anthropic.claude-3-haiku-20240307-v1:0" ∧
      maybeReassignModel "claude-3-sonnet-20240229" =
        some "anthropic.claude-3-sonnet-20240229-v1:0" ∧
      maybeReassignModel "claude-3-5-sonnet-20240620" =
        some "anthropic.claude-3-5-sonnet-20240620-v1:0" ∧
      maybeReassignModel "claude-instant-1" = some "anthropic.claude-instant-v1" ∧
      maybeReassignModel "claude-2.1" = some "anthropic.claude-v2:1" ∧
      maybeReassignModel "gpt-4" = some "anthropic.claude-v2:1" ∧
      maybeReassignModel "claude-3.0" = none := by
  refine ⟨?_, ?_, ?_, ?_, ?_, ?_, ?_, ?_, ?_, ?_, ?_, ?_⟩ <;> decide

/-! ### Theorems about routing, response translation and the compatibility
endpoint -/

/-- A model id returned by `maybeReassignModel` is a non-empty string (it
contains `"anthropic.claude"`). -/
theorem data_nonempty_of_native (r : String)
    (h : jsIncludes r "anthropic.claude" = true) : r.data.isEmpty = false := by
  cases hd : r.data with
  | nil =>
    unfold jsIncludes at h
    rw [hd] at h
    exact absurd h (by decide)
  | cons c tl => rfl

/-- C2 (counterexample): on the `/v1/complete` route, a client asking for
`"gpt-4"` whose upstream response carries no model field gets back a body
whose model is the reconciled upstream id `"anthropic.claude-v2:1"` — not the
originally requested `"gpt-4"`. -/
theorem completeRoute_backfill_not_original_model :
    completeRouteResponse "gpt-4" "u" 0 none none
        { model := none, completion := some "ok", stop_reason := some "stop_sequence" } =
      some (ClientBody.awsTextShape
        { model := some "anthropic.claude-v2:1", completion := some "ok",
          stop_reason := some "stop_sequence" }) ∧
      ("anthropic.claude-v2:1" : String) ≠ "gpt-4" := by
  exact ⟨by decide, by decide⟩

/-- C2 (amended): when the upstream response omits the model field, the
handler backfills it from `req.body.model` as it stands at response time,
i.e. with the reconciled upstream id — shown here for the native text route
(a model string not containing `"claude-3"`). -/
theorem completeRoute_backfills_reconciled_model (clientModel reconciled uuid : String)
    (now : Nat) (pt ot : Option Nat) (compl sr : Option String)
    (hrec : maybeReassignModel clientModel = some reconciled)
    (hroute : includesClaude3 (some clientModel) = false) :
    completeRouteResponse clientModel uuid now pt ot
        { model := none, completion := compl, stop_reason := sr } =
      some (ClientBody.awsTextShape
        { model := some reconciled, completion := compl, stop_reason := sr }) := by
  have hne : reconciled.data.isEmpty = false :=
    data_nonempty_of_native reconciled (maybeReassignModel_native clientModel reconciled hrec)
  unfold completeRouteResponse preprocessAwsTextRequest
  rw [hroute]
  simp only [Bool.false_eq_true, if_false, hrec, Option.some_bind]
  unfold awsResponseHandler nativeTextPreprocessor
  simp only [jsTruthy, ClientBody.modelField, ClientBody.withModel, hne]
  rfl

/-- Witness for the amended C2 at `"gpt-4"`. -/
theorem completeRoute_backfills_reconciled_model_witness :
    maybeReassignModel "gpt-4" = some "anthropic.claude-v2:1" ∧
      includesClaude3 (some "gpt-4") = false ∧
      completeRouteResponse "gpt-4" "u" 7 (some 1) (some 2)
          { model := none, completion := some "hello", stop_reason := none } =
        some (ClientBody.awsTextShape
          { model := some "anthropic.claude-v2:1", completion := some "hello",
            stop_reason := none }) :=
  ⟨by decide, by decide,
    completeRoute_backfills_reconciled_model "gpt-4" "anthropic.claude-v2:1" "u" 7
      (some 1) (some 2) (some "hello") none (by decide) (by decide)⟩

/-- C3 (counterexample): the client string `"claude-v3-opus-1"` reconciles to
the claude-3 family id `"anthropic.claude-3-opus-20240229-v1:0"`, yet the
`/v1/complete` route keeps the legacy text outbound dialect for it, because
the routing decision reads the raw string (which does not contain
`"claude-3"`), not the reconciled model. -/
theorem routing_ignores_reconciled_model :
    (preprocessAwsTextRequest (some "claude-v3-opus-1")).outApi = "anthropic-text" ∧
      maybeReassignModel "claude-v3-opus-1" =
        some "anthropic.claude-3-opus-20240229-v1:0" ∧
      jsIncludes "anthropic.claude-3-opus-20240229-v1:0" "claude-3" = true := by
  exact ⟨by decide, by decide, by decide⟩

/-- C3 (amended): the legacy-to-chat override is decided by the raw
client-supplied model string before reconciliation — both auto-routing
endpoints render with the chat outbound dialect exactly when that raw string
contains the substring `"claude-3"`. -/
theorem routing_decided_by_raw_model (bodyModel : Option String) :
    ((preprocessAwsTextRequest bodyModel).outApi = "anthropic-chat" ↔
        includesClaude3 bodyModel = true) ∧
      ((preprocessOpenAICompatRequest bodyModel).outApi = "anthropic-chat" ↔
        includesClaude3 bodyModel = true) ∧
      (preprocessAwsTextRequest bodyModel).inApi = "anthropic-text" ∧
      (preprocessOpenAICompatRequest bodyModel).inApi = "openai" := by
  unfold preprocessAwsTextRequest preprocessOpenAICompatRequest
  cases h : includesClaude3 bodyModel <;>
    simp [h, nativeTextPreprocessor, textToChatPreprocessor,
      oaiToAwsTextPreprocessor, oaiToAwsChatPreprocessor]

/-- C4: a compatibility-endpoint request whose body already carries a
`messages` list, or whose action is `"messages"`, is answered directly with
the 400 redirect-guidance envelope; the outcome is not `next`, so the
request is never passed on to the proxy. -/
theorem handleCompatibilityRequest_rejects_chat_format (req : CompatRequest)
    (h : req.messages.isSome = true ∨ req.action = "messages") :
    handleCompatibilityRequest req =
        CompatOutcome.errorResponse 400
          "Unnecessary usage of compatibility endpoint"
          "Your client seems to already support the new Claude API format. This endpoint is intended for clients that do not yet support the new format.\nUse the normal `/aws/claude` proxy endpoint instead."
          "/aws/claude/sonnet"
          "/aws/claude" ∧
      ∀ m, handleCompatibilityRequest req ≠ CompatOutcome.next m := by
  have hcond : (req.action == "messages" || req.messages.isSome) = true := by
    rcases h with h | h
    · simp [h]
    · simp [h]
  constructor
  · unfold handleCompatibilityRequest
    simp only [hcond]
    rfl
  · intro m hne
    unfold handleCompatibilityRequest at hne
    simp only [hcond] at hne
    exact CompatOutcome.noConfusion hne

/-- Witness for C4: a body already holding a message list on the
`"complete"` action. -/
theorem handleCompatibilityRequest_rejects_chat_format_witness :
    (some ["hello"] : Option (List String)).isSome = true ∧
      handleCompatibilityRequest
          { action := "complete", bodyModel := some "claude-3", messages := some ["hello"] } =
        CompatOutcome.errorResponse 400
          "Unnecessary usage of compatibility endpoint"
          "Your client seems to already support the new Claude API format. This endpoint is intended for clients that do not yet support the new format.\nUse the normal `/aws/claude` proxy endpoint instead."
          "/aws/claude/sonnet"
          "/aws/claude" :=
  ⟨rfl,
    (handleCompatibilityRequest_rejects_chat_format
      { action := "complete", bodyModel := some "claude-3", messages := some ["hello"] }
      (Or.inl rfl)).1⟩

/-- C10: every request the compatibility endpoint accepts is passed on with
`req.body.model` overwritten by the fixed compatibility id, whatever model
the client supplied. -/
theorem handleCompatibilityRequest_forces_compat_model (req : CompatRequest) (m : String)
    (h : handleCompatibilityRequest req = CompatOutcome.next m) :
    m = "anthropic.claude-3-5-sonnet-20240620-v1:0" := by
  unfold handleCompatibilityRequest at h
  simp only [] at h
  split at h
  · exact CompatOutcome.noConfusion h
  · cases h
    rfl

/-- Witness for C10 at a concrete accepted request. -/
theorem handleCompatibilityRequest_forces_compat_model_witness :
    handleCompatibilityRequest
        { action := "complete", bodyModel := some "gpt-4", messages := none } =
      CompatOutcome.next "anthropic.claude-3-5-sonnet-20240620-v1:0" ∧
      ("anthropic.claude-3-5-sonnet-20240620-v1:0" : String) =
        "anthropic.claude-3-5-sonnet-20240620-v1:0" :=
  ⟨by decide,
    handleCompatibilityRequest_forces_compat_model
      { action := "complete", bodyModel := some "gpt-4", messages := none }
      "anthropic.claude-3-5-sonnet-20240620-v1:0" (by decide)⟩

/-! ### Theorems about the credential serializer -/

/-- C7: `deserialize` derives the fingerprint from the secret when the record
carries none, zeroes every counter, marks the credential neither disabled nor
revoked (Active), and preserves each field the record does carry. -/
theorem deserialize_defaults_and_preserves (f : String → String)
    (sk : SerializedGooglePalmKey) :
    (sk.hash = none →
        (GooglePalmKeySerializer.deserialize f sk).hash = "plm-" ++ (f sk.key).take 8) ∧
      (GooglePalmKeySerializer.deserialize f sk).key = sk.key ∧
      (GooglePalmKeySerializer.deserialize f sk).promptCount = 0 ∧
      (GooglePalmKeySerializer.deserialize f sk).lastUsed = 0 ∧
      (GooglePalmKeySerializer.deserialize f sk).lastChecked = 0 ∧
      (GooglePalmKeySerializer.deserialize f sk).rateLimitedAt = 0 ∧
      (GooglePalmKeySerializer.deserialize f sk).rateLimitedUntil = 0 ∧
      (GooglePalmKeySerializer.deserialize f sk).isDisabled = false ∧
      (GooglePalmKeySerializer.deserialize f sk).isRevoked = false ∧
      (sk.bisonTokens = none → (GooglePalmKeySerializer.deserialize f sk).bisonTokens = 0) ∧
      (sk.service = none → (GooglePalmKeySerializer.deserialize f sk).service = "google-palm") ∧
      (∀ h, sk.hash = some h → (GooglePalmKeySerializer.deserialize f sk).hash = h) ∧
      (∀ sv, sk.service = some sv → (GooglePalmKeySerializer.deserialize f sk).service = sv) ∧
      (∀ t, sk.bisonTokens = some t → (GooglePalmKeySerializer.deserialize f sk).bisonTokens = t) := by
  refine ⟨?_, rfl, rfl, rfl, rfl, rfl, rfl, rfl, rfl, ?_, ?_, ?_, ?_, ?_⟩
  · intro h; simp [GooglePalmKeySerializer.deserialize, h]
  · intro h; simp [GooglePalmKeySerializer.deserialize, h]
  · intro h; simp [GooglePalmKeySerializer.deserialize, h]
  · intro h hh; simp [GooglePalmKeySerializer.deserialize, hh]
  · intro sv hs; simp [GooglePalmKeySerializer.deserialize, hs]
  · intro t ht; simp [GooglePalmKeySerializer.deserialize, ht]

/-- Witness for C7: a record carrying only the secret, deserialized with a
concrete stand-in digest. -/
theorem deserialize_defaults_and_preserves_witness :
    ({ key := "AIzaExample" } : SerializedGooglePalmKey).hash = none ∧
      (GooglePalmKeySerializer.deserialize (fun _ => "0123456789abcdef")
            { key := "AIzaExample" }).hash =
        "plm-" ++ ("0123456789abcdef".take 8) :=
  ⟨rfl,
    (deserialize_defaults_and_preserves (fun _ => "0123456789abcdef")
        { key := "AIzaExample" }).1 rfl⟩

/-- C8 (counterexample): `serialize` omits the fingerprint, the service tag
and the token-usage counter — the persisted record of a fully populated
credential carries none of them, against the claimed full §6 field list. -/
theorem serialize_omits_record_fields :
    (GooglePalmKeySerializer.serialize
          { key := "AIzaSecret", service := "google-palm", modelFamilies := ["bison"],
            isDisabled := true, isRevoked := false, promptCount := 7, lastUsed := 123,
            rateLimitedAt := 5, rateLimitedUntil := 9, hash := "plm-deadbeef",
            lastChecked := 42, bisonTokens := 999 }).hash = none ∧
      (GooglePalmKeySerializer.serialize
          { key := "AIzaSecret", service := "google-palm", modelFamilies := ["bison"],
            isDisabled := true, isRevoked := false, promptCount := 7, lastUsed := 123,
            rateLimitedAt := 5, rateLimitedUntil := 9, hash := "plm-deadbeef",
            lastChecked := 42, bisonTokens := 999 }).service = none ∧
      (GooglePalmKeySerializer.serialize
          { key := "AIzaSecret", service := "google-palm", modelFamilies := ["bison"],
            isDisabled := true, isRevoked := false, promptCount := 7, lastUsed := 123,
            rateLimitedAt := 5, rateLimitedUntil := 9, hash := "plm-deadbeef",
            lastChecked := 42, bisonTokens := 999 }).bisonTokens = none := by
  exact ⟨rfl, rfl, rfl⟩

/-- C8 (amended): the persisted record holds only the secret material; the
service tag, fingerprint and token counter the record shape supports are all
left absent. -/
theorem serialize_keeps_only_key (k : GooglePalmKey) :
    GooglePalmKeySerializer.serialize k =
      { key := k.key, service := none, hash := none, bisonTokens := none } := rfl

/-- C9: the serialize/deserialize round trip keeps only the secret and
re-derives the fingerprint from it; every usage counter and both health
flags come back at their defaults, whatever their values were. -/
theorem roundTrip_resets_state (f : String → String) (k : GooglePalmKey) :
    GooglePalmKeySerializer.deserialize f (GooglePalmKeySerializer.serialize k) =
      { key := k.key, service := "google-palm", modelFamilies := ["bison"],
        isDisabled := false, isRevoked := false, promptCount := 0, lastUsed := 0,
        rateLimitedAt := 0, rateLimitedUntil := 0,
        hash := "plm-" ++ (f k.key).take 8, lastChecked := 0, bisonTokens := 0 } := rfl

end Lounge
